import Mathlib

set_option maxHeartbeats 1000000

/-!
Shallow embedding of `src/unilabos/devices/heaterstirrer/ika.py`.

The file models the two classes of the source:

* `IkaNamurClient` — the transport client.  Its state (`ClientSt`) holds the
  serial session (`Option Bool`: `none` = no session object, `some b` = a
  session whose `is_open` flag is `b`), a counter of completed exchanges and a
  trace of externally visible events (session setup, input-buffer reset, byte
  writes, sleeps).  The outcome of the external world (whether opening the
  port or a write succeeds, and what response bytes the device produces) is an
  oracle `Env`.  Python exceptions are modelled by returning
  `Except PyErr α × State`: the second component is the object state at the
  moment the exception escapes, since Python objects keep the mutations made
  before a raise.
* `HeaterStirrer_IKA` — the facade.  `DevSt` holds `_status`, `_stir_speed`,
  `_temp_target` and the embedded client state.

Python strings are modelled as lists of Unicode code points (`PyStr`);
Python numbers as `Int`/`ℚ`.  `str.upper` is modelled on the ASCII range
(the commands sent by this driver are ASCII; `encode("ascii")` rejects
anything else).  The read-until-quiet loop of `send` (lines 46-53) runs on a
discrete clock and is modelled separately as `rxLoop`; inside `clientSend`
the response value is abstracted by the oracle `Env.resp` since it comes
from the device.
-/

/-- Python strings, as lists of Unicode code points. -/
abbrev PyStr := List Nat

/-- Code points of a Lean string literal, for writing Python string constants. -/
def pys (s : String) : PyStr := s.data.map Char.toNat

/-- Python `str.upper` on one code point, restricted to the ASCII range
(lower-case ASCII letters are shifted; everything else in this driver's
alphabet is left unchanged). -/
def pyUpperChar (c : Nat) : Nat := if 97 ≤ c ∧ c ≤ 122 then c - 32 else c

/-- Python `str.upper` (line 41 `" ".join(tokens).upper()`), on the ASCII range. -/
def pyUpper (s : PyStr) : PyStr := s.map pyUpperChar

/-- Python `sep.join(tokens)` (line 41 `" ".join(tokens)`). -/
def pyJoin (sep : PyStr) : List PyStr → PyStr
  | [] => []
  | [x] => x
  | x :: y :: xs => x ++ sep ++ pyJoin sep (y :: xs)

/-- Fuelled digit extraction: with fuel at least n + 1 the zero-fuel branch
is unreachable, since n / 10 strictly decreases while n ≥ 10.  The fuel
makes the recursion structural, so terms evaluate inside the kernel. -/
def natDigitsAux : Nat → Nat → PyStr
  | 0, _ => []
  | fuel + 1, n => if n < 10 then [48 + n] else natDigitsAux fuel (n / 10) ++ [48 + n % 10]

/-- Decimal digit code points of a natural number, most significant first
(models Python `str` on a non-negative integer). -/
def natDigits (n : Nat) : PyStr := natDigitsAux (n + 1) n

/-- Python `str(n)` for an `int` (line 67 `str(rpm)`, line 120 `f"..."`):
an optional minus sign (code point 45) followed by the decimal digits. -/
def pyIntStr (n : Int) : PyStr :=
  if n < 0 then 45 :: natDigits n.natAbs else natDigits n.natAbs

/-- ASCII decimal digit test on a code point. -/
def isDigit (c : Nat) : Bool := 48 ≤ c && c ≤ 57

/-- Value of a string of decimal digit code points. -/
def digitsVal (l : PyStr) : Nat := l.foldl (fun a c => a * 10 + (c - 48)) 0

/-- Python `float(s)` on an unsigned plain decimal literal: digits with an
optional single decimal point, at least one digit overall.  Special float
syntax (`inf`, `nan`, exponents, underscores, surrounding whitespace) is
outside the model; no claim evaluates it. -/
def parseDec (l : PyStr) : Option ℚ :=
  let ip := l.takeWhile isDigit
  match l.dropWhile isDigit with
  | [] => if ip.isEmpty then Option.none else some (digitsVal ip : ℚ)
  | 46 :: frac =>
      if frac.all isDigit && !(ip.isEmpty && frac.isEmpty) then
        some ((digitsVal ip : ℚ) + (digitsVal frac : ℚ) / (10 : ℚ) ^ frac.length)
      else Option.none
  | _ => Option.none

/-- Python `float(s)` on a string: optional sign then a plain decimal literal. -/
def parsePyFloat (l : PyStr) : Option ℚ :=
  match l with
  | 43 :: rest => parseDec rest
  | 45 :: rest => (parseDec rest).map (fun q => -q)
  | _ => parseDec l

/-- Exception kinds raised by the modelled code.  `UnicodeEncodeError` is a
subclass of `ValueError` and is mapped to `valueError`; pyserial write
timeouts are `IOError`-kind and map to `ioError`. -/
inductive PyErr where
  | valueError
  | typeError
  | ioError
  | connectionError
deriving DecidableEq

/-- Python values that flow into the facade from the orchestration layer:
`None`, ints, floats (as exact rationals), strings, and dicts. -/
inductive PyVal where
  | none
  | int (n : Int)
  | float (q : ℚ)
  | str (s : PyStr)
  | dict (fields : List (PyStr × PyVal))

/-- Python `float(x)`: ints and floats convert, strings are parsed
(`ValueError` on failure), `None` and dicts raise `TypeError`. -/
def pyFloat : PyVal → Except PyErr ℚ
  | PyVal.int n => Except.ok (n : ℚ)
  | PyVal.float q => Except.ok q
  | PyVal.str s =>
      match parsePyFloat s with
      | some q => Except.ok q
      | Option.none => Except.error PyErr.valueError
  | PyVal.none => Except.error PyErr.typeError
  | PyVal.dict _ => Except.error PyErr.typeError

/-- Python `int(q)` on a float: truncation toward zero (line 106
`int(float(speed))`).  `q.den` is positive, and `Int.tdiv` truncates toward
zero, so this is exact. -/
def ratTrunc (q : ℚ) : Int := Int.tdiv q.num (q.den : Int)

/-- Python `str(x)` as used by `_extract_vessel_id` (lines 131-132).
`str(None) = "None"`; the renderings of floats and dicts are rough
placeholders — no claim evaluates them. -/
def pyStr : PyVal → PyStr
  | PyVal.none => pys "None"
  | PyVal.str s => s
  | PyVal.int n => pyIntStr n
  | PyVal.float q => pyIntStr (ratTrunc q)
  | PyVal.dict _ => [123, 125]

namespace Ika

/-- Externally visible actions of a run, in order. -/
inductive Event where
  | openSession
  | resetInput
  | write (bs : PyStr)
  | sleepS (secs : ℚ)
  | asleep (secs : ℚ)
deriving DecidableEq

/-- Oracle for the external world: whether constructing the serial session
succeeds, whether the k-th exchange's write succeeds, and the (stripped)
response text of the k-th exchange. -/
structure Env where
  openOk : Bool
  writeOk : Nat → Bool
  resp : Nat → PyStr

/-- State of an `IkaNamurClient`: the serial session (`none` = no object,
`some b` = object with `is_open = b`), the exchange counter used to index
the oracle, and the event trace of the run so far. -/
structure ClientSt where
  ser : Option Bool
  k : Nat
  tr : List Event
deriving DecidableEq

/-- Client state right after `IkaNamurClient.__init__` (lines 14-18). -/
def initCli : ClientSt := ⟨Option.none, 0, []⟩

/-- `IkaNamurClient.open` (lines 20-32): return immediately when a session
exists and is open; otherwise construct a session (which raises a
`ConnectionError`-kind failure if the port cannot be opened, leaving `_ser`
unassigned) and settle for 0.1 s. -/
def clientOpen (env : Env) (c : ClientSt) : Except PyErr Unit × ClientSt :=
  if c.ser = some true then (Except.ok (), c)
  else if env.openOk then
    (Except.ok (),
     { c with ser := some true, tr := c.tr ++ [Event.openSession, Event.sleepS (1/10)] })
  else (Except.error PyErr.connectionError, c)

/-- The framed command line of `send`: upper-cased space-joined tokens plus
CRLF (lines 41-42). -/
def cmdPayload (tokens : List PyStr) : PyStr :=
  pyUpper (pyJoin (pys " ") tokens) ++ [13, 10]

/-- `IkaNamurClient.send` (lines 38-54).  Auto-opens the session when needed
(the guard on line 39 is behaviourally identical to calling `open`, which
returns early when the session is open).  `encode("ascii")` (line 42) raises
before `reset_input_buffer` (line 43) runs when the line is not ASCII; the
`write` (line 44) raises an `IOError`-kind failure when the oracle says so.
On success the settle sleep (line 45) runs and the read-until-quiet loop —
modelled separately as `rxLoop` — yields the response, abstracted here by
the oracle `env.resp`. -/
def clientSend (env : Env) (tokens : List PyStr) (c : ClientSt) :
    Except PyErr PyStr × ClientSt :=
  match clientOpen env c with
  | (Except.error e, c1) => (Except.error e, c1)
  | (Except.ok _, c1) =>
    let payload := cmdPayload tokens
    if payload.all (fun b => b < 128) then
      let c2 := { c1 with tr := c1.tr ++ [Event.resetInput] }
      if env.writeOk c2.k then
        (Except.ok (env.resp c2.k),
         { c2 with tr := c2.tr ++ [Event.write payload, Event.sleepS (1/4)],
                   k := c2.k + 1 })
      else (Except.error PyErr.ioError, c2)
    else (Except.error PyErr.valueError, c1)

/-- `IkaNamurClient.set_speed` (lines 66-67). -/
def set_speed (env : Env) (rpm : Int) (c : ClientSt) : Except PyErr PyStr × ClientSt :=
  clientSend env [pys "OUT_SP_4", pyIntStr rpm] c

/-- `IkaNamurClient.start` (lines 69-70). -/
def start (env : Env) (c : ClientSt) : Except PyErr PyStr × ClientSt :=
  clientSend env [pys "START_4"] c

/-- `IkaNamurClient.stop` (lines 72-73). -/
def stop (env : Env) (c : ClientSt) : Except PyErr PyStr × ClientSt :=
  clientSend env [pys "STOP_4"] c

/-- State of a `HeaterStirrer_IKA`: `_status`, `_stir_speed`, `_temp_target`
(lines 90-92) and the embedded client. -/
structure DevSt where
  status : PyStr
  stir_speed : ℚ
  temp_target : ℚ
  cli : ClientSt
deriving DecidableEq

/-- Facade state after a successful `HeaterStirrer_IKA.__init__`
(lines 89-94): status `"Idle"`, speed `0.0`, target `20.0`, session open,
trace taken as empty from here on. -/
def initDev : DevSt := ⟨pys "Idle", 0, 20, ⟨some true, 0, []⟩⟩

/-- The `status` property (lines 96-99): recomputed from `_stir_speed` on
every read and written back to `_status`. -/
def statusGet (s : DevSt) : PyStr × DevSt :=
  let v := if s.stir_speed = 0 then pys "Idle" else pys "Running"
  (v, { s with status := v })

/-- `HeaterStirrer_IKA.set_stir_speed` (lines 105-112): `int(float(speed))`
with no exception handler, then `set_speed`, then `start` when positive else
`stop`, and only after both exchanges succeed the assignment
`_stir_speed = float(speed_int)`. -/
def set_stir_speed (env : Env) (speed : PyVal) (s : DevSt) : Except PyErr Unit × DevSt :=
  match pyFloat speed with
  | Except.error e => (Except.error e, s)
  | Except.ok q =>
    let speed_int := ratTrunc q
    match set_speed env speed_int s.cli with
    | (Except.error e, c) => (Except.error e, { s with cli := c })
    | (Except.ok _, c) =>
      match (if speed_int > 0 then start env c else stop env c) with
      | (Except.error e, c2) => (Except.error e, { s with cli := c2 })
      | (Except.ok _, c2) =>
        (Except.ok (), { s with cli := c2, stir_speed := (speed_int : ℚ) })

/-- `HeaterStirrer_IKA.set_temp_target` (lines 118-121): the assignment
`self._temp_target = float(temp)` happens BEFORE the two sends, so a
transport failure leaves the new target stored. -/
def set_temp_target (env : Env) (temp : PyVal) (s : DevSt) : Except PyErr Unit × DevSt :=
  match pyFloat temp with
  | Except.error e => (Except.error e, s)
  | Except.ok q =>
    let s1 := { s with temp_target := q }
    match clientSend env [pys "OUT_SP_1", pyIntStr (ratTrunc q)] s1.cli with
    | (Except.error e, c) => (Except.error e, { s1 with cli := c })
    | (Except.ok _, c) =>
      match clientSend env [pys "START_1"] c with
      | (Except.error e, c2) => (Except.error e, { s1 with cli := c2 })
      | (Except.ok _, c2) => (Except.ok (), { s1 with cli := c2 })

/-- `HeaterStirrer_IKA._extract_vessel_id` (lines 129-132):
`str(vessel.get("id", ""))` on dicts, `str(vessel)` otherwise. -/
def extract_vessel_id (vessel : PyVal) : PyStr :=
  match vessel with
  | PyVal.dict fields => pyStr ((fields.lookup (pys "id")).getD (PyVal.str []))
  | v => pyStr v

/-- The `try: speed_int = int(float(x)) except (ValueError, TypeError):
speed_int = 0` block of `start_stir` (lines 142-145) and `stir`
(lines 168-171). -/
def coerceSpeed (v : PyVal) : Int :=
  match pyFloat v with
  | Except.ok q => ratTrunc q
  | Except.error _ => 0

/-- The `try: seconds = max(0.0, float(x)) except (ValueError, TypeError):
seconds = 0.0` blocks of `stir` (lines 164-167 and 172-175). -/
def coerceDuration (v : PyVal) : ℚ :=
  match pyFloat v with
  | Except.ok q => max 0 q
  | Except.error _ => 0

/-- `HeaterStirrer_IKA.start_stir` (lines 134-148): extract the vessel id
(unused), coerce the speed with fallback 0, dispatch `set_stir_speed` with
the coerced int, report `True`. -/
def start_stir (env : Env) (vessel stir_speed : PyVal) (s : DevSt) :
    Except PyErr Bool × DevSt :=
  let _ := extract_vessel_id vessel
  let speed_int := coerceSpeed stir_speed
  match set_stir_speed env (PyVal.int speed_int) s with
  | (Except.error e, s1) => (Except.error e, s1)
  | (Except.ok _, s1) => (Except.ok true, s1)

/-- `HeaterStirrer_IKA.stop_stir` (lines 150-154). -/
def stop_stir (env : Env) (vessel : PyVal) (s : DevSt) : Except PyErr Bool × DevSt :=
  let _ := extract_vessel_id vessel
  match set_stir_speed env (PyVal.int 0) s with
  | (Except.error e, s1) => (Except.error e, s1)
  | (Except.ok _, s1) => (Except.ok true, s1)

/-- `HeaterStirrer_IKA.stir` (lines 156-187): coerce the three parameters,
`set_stir_speed(speed_int)`, `asyncio.sleep(stir_time)` when positive,
`set_stir_speed(0)`, `asyncio.sleep(settling_time)` when positive, `True`.
`asyncio.sleep` is logged as an `Event.asleep`. -/
def stir (env : Env) (stir_time stir_speed settling_time : PyVal) (s : DevSt) :
    Except PyErr Bool × DevSt :=
  let total_stir_seconds := coerceDuration stir_time
  let speed_int := coerceSpeed stir_speed
  let total_settle_seconds := coerceDuration settling_time
  match set_stir_speed env (PyVal.int speed_int) s with
  | (Except.error e, s1) => (Except.error e, s1)
  | (Except.ok _, s1) =>
    let s2 :=
      if total_stir_seconds > 0 then
        { s1 with cli := { s1.cli with tr := s1.cli.tr ++ [Event.asleep total_stir_seconds] } }
      else s1
    match set_stir_speed env (PyVal.int 0) s2 with
    | (Except.error e, s3) => (Except.error e, s3)
    | (Except.ok _, s3) =>
      let s4 :=
        if total_settle_seconds > 0 then
          { s3 with cli := { s3.cli with tr := s3.cli.tr ++ [Event.asleep total_settle_seconds] } }
        else s3
      (Except.ok true, s4)

/-- State after a sequence of `set_stir_speed` calls (the post-state is kept
even when a call raises, as the Python object would). -/
def runSpeeds (env : Env) (xs : List PyVal) (s : DevSt) : DevSt :=
  xs.foldl (fun t v => (set_stir_speed env v t).2) s

/-- The byte payloads written to the serial port, in order. -/
def writesOf (tr : List Event) : List PyStr :=
  tr.filterMap fun e =>
    match e with
    | Event.write bs => some bs
    | _ => Option.none

/-- The `asyncio.sleep` durations of a trace, in order. -/
def asleepsOf (tr : List Event) : List ℚ :=
  tr.filterMap fun e =>
    match e with
    | Event.asleep q => some q
    | _ => Option.none

/-- How many serial-session setups a trace performed. -/
def opensCount (tr : List Event) : Nat :=
  (tr.filter fun e =>
    match e with
    | Event.openSession => true
    | _ => false).length

/-- State of the read-until-quiet loop of `send` (lines 46-53), on a
discrete clock: the current time, the bytes available but not yet read
(`in_waiting`), and the bytes accumulated in `buf`. -/
structure RxSt where
  t : Nat
  waiting : PyStr
  buf : PyStr
deriving DecidableEq

/-- One iteration of the loop body (lines 49-53): read whatever is
available and append it to `buf`; during the tick the device delivers
`arrive t`, which is the next iteration's `in_waiting`.  An idle iteration
(`waiting = []`) reads nothing and spends its tick in the 0.02 s poll sleep
or the bounded `read(1)`, so the clock always advances. -/
def rxStep (arrive : Nat → PyStr) (s : RxSt) : RxSt :=
  { t := s.t + 1, waiting := arrive s.t, buf := s.buf ++ s.waiting }

/-- The loop `while time.time() < end or self._ser.in_waiting` (line 48),
fuelled: `Option.none` means the fuel ran out before the guard turned
false. -/
def rxLoop (arrive : Nat → PyStr) (deadline : Nat) (fuel : Nat) (s : RxSt) : Option RxSt :=
  if s.t < deadline ∨ s.waiting ≠ [] then
    match fuel with
    | 0 => Option.none
    | fuel' + 1 => rxLoop arrive deadline fuel' (rxStep arrive s)
  else some s

/-- The full read loop of one `send`, from clock 0 with empty buffers, with
enough fuel for a stream that is quiet from time `T` on. -/
def rxRun (arrive : Nat → PyStr) (deadline T : Nat) : Option RxSt :=
  rxLoop arrive deadline (max deadline (T + 1) + 1) ⟨0, [], []⟩

/-- The event trace one successful `set_stir_speed` appends: the set-speed
exchange followed by the start (positive) or stop (otherwise) exchange. -/
def ssEvents (n : Int) : List Event :=
  [Event.resetInput, Event.write (cmdPayload [pys "OUT_SP_4", pyIntStr n]), Event.sleepS (1/4),
   Event.resetInput, Event.write (cmdPayload [if n > 0 then pys "START_4" else pys "STOP_4"]),
   Event.sleepS (1/4)]

end Ika

namespace Ika

/-- An environment whose transport never fails and whose device stays silent. -/
def okEnv : Env := ⟨true, fun _ => true, fun _ => []⟩

/-- An environment whose every write fails with a write timeout. -/
def failEnv : Env := ⟨true, fun _ => false, fun _ => []⟩

/-- An environment where only the first write succeeds. -/
def secondFailEnv : Env := ⟨true, fun k => k == 0, fun _ => []⟩

lemma pys_space : pys " " = [32] := by decide

lemma natDigitsAux_mem (fuel : Nat) : ∀ n, ∀ c ∈ natDigitsAux fuel n, 48 ≤ c ∧ c ≤ 57 := by
  induction fuel with
  | zero => intro n c hc; simp [natDigitsAux] at hc
  | succ f ih =>
    intro n c hc
    rw [natDigitsAux] at hc
    split at hc
    · simp only [List.mem_singleton] at hc
      omega
    · rw [List.mem_append] at hc
      rcases hc with hc | hc
      · exact ih (n / 10) c hc
      · simp only [List.mem_singleton] at hc
        have : n % 10 < 10 := Nat.mod_lt _ (by omega)
        omega

lemma natDigits_mem (n : Nat) : ∀ c ∈ natDigits n, 48 ≤ c ∧ c ≤ 57 :=
  natDigitsAux_mem (n + 1) n

lemma pyIntStr_mem (n : Int) : ∀ c ∈ pyIntStr n, 45 ≤ c ∧ c ≤ 57 := by
  intro c hc
  unfold pyIntStr at hc
  split at hc
  · rcases List.mem_cons.mp hc with rfl | hc
    · omega
    · have := natDigits_mem _ c hc; omega
  · have := natDigits_mem _ c hc; omega

lemma pyUpperChar_of_lt (c : Nat) (h : c < 97) : pyUpperChar c = c := by
  unfold pyUpperChar
  rw [if_neg (by omega)]

lemma pyUpperChar_lt128 (c : Nat) (h : c < 128) : pyUpperChar c < 128 := by
  unfold pyUpperChar
  split <;> omega

lemma pyUpper_eq_self (l : PyStr) (h : ∀ c ∈ l, c < 97) : pyUpper l = l := by
  unfold pyUpper
  induction l with
  | nil => rfl
  | cons c t ih =>
    simp only [List.map_cons]
    rw [pyUpperChar_of_lt c (h c (by simp)), ih (fun d hd => h d (List.mem_cons_of_mem _ hd))]

lemma pyJoin_mem (sep : PyStr) (xs : List PyStr) :
    ∀ c ∈ pyJoin sep xs, c ∈ sep ∨ ∃ x ∈ xs, c ∈ x := by
  induction xs with
  | nil => intro c hc; simp [pyJoin] at hc
  | cons x t ih =>
    intro c hc
    cases t with
    | nil =>
      right
      exact ⟨x, by simp, by simpa [pyJoin] using hc⟩
    | cons y r =>
      rw [show pyJoin sep (x :: y :: r) = x ++ sep ++ pyJoin sep (y :: r) from rfl] at hc
      rw [List.mem_append, List.mem_append] at hc
      rcases hc with (hc | hc) | hc
      · exact Or.inr ⟨x, by simp, hc⟩
      · exact Or.inl hc
      · rcases ih c hc with h | ⟨z, hz, hcz⟩
        · exact Or.inl h
        · exact Or.inr ⟨z, List.mem_cons_of_mem _ hz, hcz⟩

lemma cmdPayload_ascii (tokens : List PyStr) (h : ∀ t ∈ tokens, ∀ c ∈ t, c < 128) :
    (cmdPayload tokens).all (fun b => b < 128) = true := by
  simp only [List.all_eq_true, decide_eq_true_eq]
  intro b hb
  unfold cmdPayload at hb
  rw [List.mem_append] at hb
  rcases hb with hb | hb
  · unfold pyUpper at hb
    rw [List.mem_map] at hb
    obtain ⟨c, hc, rfl⟩ := hb
    refine pyUpperChar_lt128 c ?_
    rcases pyJoin_mem _ _ c hc with hsp | ⟨x, hx, hcx⟩
    · rw [pys_space, List.mem_singleton] at hsp
      omega
    · exact h x hx c hcx
  · simp only [List.mem_cons, List.mem_singleton, List.not_mem_nil, or_false] at hb
    omega

lemma speedCmd_ascii (n : Int) :
    (cmdPayload [pys "OUT_SP_4", pyIntStr n]).all (fun b => b < 128) = true := by
  refine cmdPayload_ascii _ ?_
  intro t ht c hc
  simp only [List.mem_cons, List.not_mem_nil, or_false] at ht
  rcases ht with rfl | rfl
  · have hall : ∀ d ∈ pys "OUT_SP_4", d < 128 := by decide
    exact hall c hc
  · have := pyIntStr_mem n c hc
    omega

lemma startCmd_ascii : (cmdPayload [pys "START_4"]).all (fun b => b < 128) = true := by decide

lemma stopCmd_ascii : (cmdPayload [pys "STOP_4"]).all (fun b => b < 128) = true := by decide

lemma clientOpen_of_open (env : Env) (c : ClientSt) (hs : c.ser = some true) :
    clientOpen env c = (Except.ok (), c) := by
  unfold clientOpen
  rw [if_pos hs]

lemma clientSend_ok (env : Env) (tokens : List PyStr) (c : ClientSt)
    (hs : c.ser = some true) (hw : env.writeOk c.k = true)
    (ha : (cmdPayload tokens).all (fun b => b < 128) = true) :
    clientSend env tokens c =
      (Except.ok (env.resp c.k),
       { c with
         tr := c.tr ++ [Event.resetInput, Event.write (cmdPayload tokens), Event.sleepS (1/4)],
         k := c.k + 1 }) := by
  unfold clientSend
  rw [clientOpen_of_open env c hs]
  simp only [ha, if_true, hw]
  simp [List.append_assoc]

lemma ratTrunc_intCast (n : Int) : ratTrunc (n : ℚ) = n := by
  unfold ratTrunc
  rw [Rat.num_intCast, Rat.den_intCast]
  cases n with
  | ofNat m => simp [Int.tdiv]
  | negSucc m => simp [Int.tdiv, Int.negSucc_eq]

lemma pyFloat_ne_io (v : PyVal) : pyFloat v ≠ Except.error PyErr.ioError := by
  cases v <;> simp [pyFloat]
  split <;> simp

end Ika

namespace Ika

lemma set_stir_speed_ok (env : Env) (speed : PyVal) (s : DevSt) (q : ℚ)
    (hq : pyFloat speed = Except.ok q)
    (hs : s.cli.ser = some true) (hw : ∀ j, env.writeOk j = true) :
    set_stir_speed env speed s =
      (Except.ok (),
       { s with
         stir_speed := (ratTrunc q : ℚ),
         cli := { s.cli with
           k := s.cli.k + 2,
           tr := s.cli.tr ++
             [Event.resetInput,
              Event.write (cmdPayload [pys "OUT_SP_4", pyIntStr (ratTrunc q)]),
              Event.sleepS (1/4),
              Event.resetInput,
              Event.write (cmdPayload [if ratTrunc q > 0 then pys "START_4" else pys "STOP_4"]),
              Event.sleepS (1/4)] } }) := by
  simp only [set_stir_speed, set_speed, hq]
  rw [clientSend_ok env _ s.cli hs (hw _) (speedCmd_ascii _)]
  by_cases hpos : ratTrunc q > 0
  · simp only [if_pos hpos, start]
    rw [clientSend_ok env _ _ (by simp [hs]) (hw _) startCmd_ascii]
    simp [List.append_assoc]
  · simp only [if_neg hpos, stop]
    rw [clientSend_ok env _ _ (by simp [hs]) (hw _) stopCmd_ascii]
    simp [List.append_assoc]

end Ika

namespace Ika

/-- C3: for every sequence of one or more ASCII string tokens containing no
line terminator, when the session is open and the write succeeds, `send`
writes to the serial port exactly the ASCII bytes of the upper-cased
space-joined tokens followed by CRLF — one write event, nothing else. -/
theorem C3_send_writes_exact (env : Env) (tokens : List PyStr) (c : ClientSt)
    (_hne : tokens ≠ [])
    (hascii : ∀ t ∈ tokens, ∀ ch ∈ t, ch < 128)
    (_hterm : ∀ t ∈ tokens, ∀ ch ∈ t, ch ≠ 13 ∧ ch ≠ 10)
    (hs : c.ser = some true) (hw : env.writeOk c.k = true) :
    (clientSend env tokens c).1 = Except.ok (env.resp c.k) ∧
    writesOf (clientSend env tokens c).2.tr =
      writesOf c.tr ++ [pyUpper (pyJoin (pys " ") tokens) ++ [13, 10]] := by
  rw [clientSend_ok env tokens c hs hw (cmdPayload_ascii tokens hascii)]
  refine ⟨rfl, ?_⟩
  simp [writesOf, cmdPayload, List.filterMap_append]

/-- C3 witness: a concrete two-token send writes exactly the upper-cased
joined line plus CRLF. -/
theorem C3_send_writes_exact_witness :
    (clientSend okEnv [pys "out_sp_4", pys "50"] ⟨some true, 0, []⟩).1 =
      Except.ok (okEnv.resp 0) ∧
    writesOf (clientSend okEnv [pys "out_sp_4", pys "50"] ⟨some true, 0, []⟩).2.tr =
      writesOf ([] : List Event) ++
        [pyUpper (pyJoin (pys " ") [pys "out_sp_4", pys "50"]) ++ [13, 10]] :=
  C3_send_writes_exact okEnv [pys "out_sp_4", pys "50"] ⟨some true, 0, []⟩
    (by decide) (by decide) (by decide) rfl rfl

/-- C4: starting from a freshly constructed client, `open()` succeeds and
performs session setup exactly once; a second `open()` right after is a
no-op returning the same state; and more generally `open()` on any client
whose session is open is a no-op. -/
theorem C4_open_idempotent (env : Env) (c : ClientSt)
    (ho : env.openOk = true) (hc : c.ser = some true) :
    (clientOpen env initCli).1 = Except.ok () ∧
    opensCount (clientOpen env initCli).2.tr = 1 ∧
    clientOpen env (clientOpen env initCli).2 = (Except.ok (), (clientOpen env initCli).2) ∧
    clientOpen env c = (Except.ok (), c) := by
  have h1 : clientOpen env initCli =
      (Except.ok (), ⟨some true, 0, [Event.openSession, Event.sleepS (1/10)]⟩) := by
    simp [clientOpen, initCli, ho]
  refine ⟨by rw [h1], ?_, ?_, clientOpen_of_open env c hc⟩
  · rw [h1]
    decide
  · rw [h1]
    exact clientOpen_of_open env _ rfl

/-- C4 witness at a concrete environment and an already-open client. -/
theorem C4_open_idempotent_witness :
    (clientOpen okEnv initCli).1 = Except.ok () ∧
    opensCount (clientOpen okEnv initCli).2.tr = 1 ∧
    clientOpen okEnv (clientOpen okEnv initCli).2 = (Except.ok (), (clientOpen okEnv initCli).2) ∧
    clientOpen okEnv ⟨some true, 3, []⟩ = (Except.ok (), ⟨some true, 3, []⟩) :=
  C4_open_idempotent okEnv ⟨some true, 3, []⟩ rfl rfl

/-- C5: for every numeric speed input (one `float` accepts), `set_stir_speed`
truncates it to the integer n, issues the set-speed command with n and then
`START_4` when n is positive, else `STOP_4` (set-speed always first), and
stores n (as a rational) in `_stir_speed`. -/
theorem C5_set_stir_speed_commands (env : Env) (speed : PyVal) (s : DevSt) (q : ℚ)
    (hq : pyFloat speed = Except.ok q)
    (hs : s.cli.ser = some true) (hw : ∀ j, env.writeOk j = true) :
    (set_stir_speed env speed s).1 = Except.ok () ∧
    writesOf (set_stir_speed env speed s).2.cli.tr =
      writesOf s.cli.tr ++
        [cmdPayload [pys "OUT_SP_4", pyIntStr (ratTrunc q)],
         cmdPayload [if ratTrunc q > 0 then pys "START_4" else pys "STOP_4"]] ∧
    (set_stir_speed env speed s).2.stir_speed = (ratTrunc q : ℚ) := by
  rw [set_stir_speed_ok env speed s q hq hs hw]
  refine ⟨rfl, ?_, rfl⟩
  simp [writesOf, List.filterMap_append]

/-- C5 witness at speed 0: the set-speed command is followed by `STOP_4`. -/
theorem C5_set_stir_speed_commands_witness :
    (set_stir_speed okEnv (PyVal.int 0) initDev).1 = Except.ok () ∧
    writesOf (set_stir_speed okEnv (PyVal.int 0) initDev).2.cli.tr =
      writesOf initDev.cli.tr ++
        [cmdPayload [pys "OUT_SP_4", pyIntStr (ratTrunc 0)],
         cmdPayload [if ratTrunc 0 > 0 then pys "START_4" else pys "STOP_4"]] ∧
    (set_stir_speed okEnv (PyVal.int 0) initDev).2.stir_speed = (ratTrunc 0 : ℚ) :=
  C5_set_stir_speed_commands okEnv (PyVal.int 0) initDev 0 rfl rfl (fun _ => rfl)

/-- C6: after any sequence of `set_stir_speed` calls, the `status` property
reads `"Idle"` exactly when the stored stir speed is 0 and `"Running"`
exactly otherwise; it is recomputed from `_stir_speed` on every read. -/
theorem C6_status_derived (env : Env) (xs : List PyVal) :
    ((statusGet (runSpeeds env xs initDev)).1 = pys "Idle" ↔
       (runSpeeds env xs initDev).stir_speed = 0) ∧
    ((statusGet (runSpeeds env xs initDev)).1 = pys "Running" ↔
       ¬ (runSpeeds env xs initDev).stir_speed = 0) := by
  have hne : pys "Idle" ≠ pys "Running" := by decide
  by_cases h : (runSpeeds env xs initDev).stir_speed = 0
  · simp [statusGet, h, hne]
  · simp [statusGet, h, (Ne.symm hne : pys "Running" ≠ pys "Idle")]

/-- C10: a speed input that truncates to a negative integer n issues the
stop command (not start), stores n as the stir speed, and the `status`
property then reports `"Running"` even though the motor was told to stop. -/
theorem C10_negative_speed (env : Env) (speed : PyVal) (s : DevSt) (q : ℚ)
    (hq : pyFloat speed = Except.ok q) (hneg : ratTrunc q < 0)
    (hs : s.cli.ser = some true) (hw : ∀ j, env.writeOk j = true) :
    (set_stir_speed env speed s).1 = Except.ok () ∧
    writesOf (set_stir_speed env speed s).2.cli.tr =
      writesOf s.cli.tr ++
        [cmdPayload [pys "OUT_SP_4", pyIntStr (ratTrunc q)], cmdPayload [pys "STOP_4"]] ∧
    (set_stir_speed env speed s).2.stir_speed = (ratTrunc q : ℚ) ∧
    (statusGet (set_stir_speed env speed s).2).1 = pys "Running" := by
  rw [set_stir_speed_ok env speed s q hq hs hw]
  have hnpos : ¬ ratTrunc q > 0 := by omega
  have hcast : ((ratTrunc q : ℚ)) ≠ 0 := by
    exact_mod_cast (by omega : ratTrunc q ≠ 0)
  refine ⟨rfl, ?_, rfl, ?_⟩
  · simp [writesOf, List.filterMap_append, if_neg hnpos]
  · simp [statusGet, hcast]

/-- C10 witness at speed -5. -/
theorem C10_negative_speed_witness :
    (set_stir_speed okEnv (PyVal.int (-5)) initDev).1 = Except.ok () ∧
    writesOf (set_stir_speed okEnv (PyVal.int (-5)) initDev).2.cli.tr =
      writesOf initDev.cli.tr ++
        [cmdPayload [pys "OUT_SP_4", pyIntStr (ratTrunc (-5))], cmdPayload [pys "STOP_4"]] ∧
    (set_stir_speed okEnv (PyVal.int (-5)) initDev).2.stir_speed = (ratTrunc (-5) : ℚ) ∧
    (statusGet (set_stir_speed okEnv (PyVal.int (-5)) initDev).2).1 = pys "Running" :=
  C10_negative_speed okEnv (PyVal.int (-5)) initDev (-5) rfl (by decide) rfl (fun _ => rfl)

end Ika

namespace Ika

lemma set_stir_speed_int_ok (env : Env) (n : Int) (s : DevSt)
    (hs : s.cli.ser = some true) (hw : ∀ j, env.writeOk j = true) :
    set_stir_speed env (PyVal.int n) s =
      (Except.ok (),
       { s with
         stir_speed := (n : ℚ),
         cli := { s.cli with k := s.cli.k + 2, tr := s.cli.tr ++ ssEvents n } }) := by
  have h := set_stir_speed_ok env (PyVal.int n) s (n : ℚ) rfl hs hw
  rw [ratTrunc_intCast] at h
  rw [h]
  rfl

end Ika

namespace Ika

/-- C7: `stir` always ends its stir phase with `set_stir_speed(0)` — the
write trace is set-speed(n), start-or-stop, set-speed(0), stop, even when
the requested speed was already 0 (then stop is issued twice in a row); the
timed waits happen only for positive durations, so `stir(0,0,0)` performs no
timed wait; the call reports `True`. -/
theorem C7_stir_trace (env : Env) (s : DevSt) (t v u : PyVal)
    (hs : s.cli.ser = some true) (hw : ∀ j, env.writeOk j = true) :
    (stir env t v u s).1 = Except.ok true ∧
    writesOf (stir env t v u s).2.cli.tr =
      writesOf s.cli.tr ++
        [cmdPayload [pys "OUT_SP_4", pyIntStr (coerceSpeed v)],
         cmdPayload [if coerceSpeed v > 0 then pys "START_4" else pys "STOP_4"],
         cmdPayload [pys "OUT_SP_4", pyIntStr 0],
         cmdPayload [pys "STOP_4"]] ∧
    asleepsOf (stir env t v u s).2.cli.tr =
      asleepsOf s.cli.tr ++
        ((if coerceDuration t > 0 then [coerceDuration t] else []) ++
         (if coerceDuration u > 0 then [coerceDuration u] else [])) := by
  have h1 := set_stir_speed_int_ok env (coerceSpeed v) s hs hw
  by_cases ht : coerceDuration t > 0 <;> by_cases hu : coerceDuration u > 0
  · simp only [stir, h1]
    rw [if_pos ht, set_stir_speed_int_ok env 0]
    · simp [hu, writesOf, asleepsOf, ssEvents, List.filterMap_append, ht]
    · exact hs
    · exact hw
  · simp only [stir, h1]
    rw [if_pos ht, set_stir_speed_int_ok env 0]
    · simp [hu, writesOf, asleepsOf, ssEvents, List.filterMap_append, ht]
    · exact hs
    · exact hw
  · simp only [stir, h1]
    rw [if_neg ht, set_stir_speed_int_ok env 0]
    · simp [hu, writesOf, asleepsOf, ssEvents, List.filterMap_append, ht]
    · exact hs
    · exact hw
  · simp only [stir, h1]
    rw [if_neg ht, set_stir_speed_int_ok env 0]
    · simp [hu, writesOf, asleepsOf, ssEvents, List.filterMap_append, ht]
    · exact hs
    · exact hw

/-- C7 witness: `stir(0, 0, 0)` issues set-speed-0 + stop twice in a row,
performs no timed wait, and returns true. -/
theorem C7_stir_trace_witness :
    (stir okEnv (PyVal.int 0) (PyVal.int 0) (PyVal.int 0) initDev).1 = Except.ok true ∧
    writesOf (stir okEnv (PyVal.int 0) (PyVal.int 0) (PyVal.int 0) initDev).2.cli.tr =
      writesOf initDev.cli.tr ++
        [cmdPayload [pys "OUT_SP_4", pyIntStr (coerceSpeed (PyVal.int 0))],
         cmdPayload
           [if coerceSpeed (PyVal.int 0) > 0 then pys "START_4" else pys "STOP_4"],
         cmdPayload [pys "OUT_SP_4", pyIntStr 0],
         cmdPayload [pys "STOP_4"]] ∧
    asleepsOf (stir okEnv (PyVal.int 0) (PyVal.int 0) (PyVal.int 0) initDev).2.cli.tr =
      asleepsOf initDev.cli.tr ++
        ((if coerceDuration (PyVal.int 0) > 0 then [coerceDuration (PyVal.int 0)] else []) ++
         (if coerceDuration (PyVal.int 0) > 0 then [coerceDuration (PyVal.int 0)] else [])) :=
  C7_stir_trace okEnv initDev (PyVal.int 0) (PyVal.int 0) (PyVal.int 0) rfl (fun _ => rfl)

end Ika

namespace Ika

lemma set_stir_speed_keeps_fields_on_error (env : Env) (speed : PyVal) (s : DevSt)
    (h : (set_stir_speed env speed s).1 = Except.error PyErr.ioError) :
    (set_stir_speed env speed s).2.stir_speed = s.stir_speed ∧
    (set_stir_speed env speed s).2.temp_target = s.temp_target := by
  unfold set_stir_speed at h ⊢
  rcases hv : pyFloat speed with e | q
  · simp [hv]
  · simp only [hv] at h ⊢
    rcases h1 : set_speed env (ratTrunc q) s.cli with ⟨res1, c1⟩
    rcases res1 with e1 | r1
    · simp [h1]
    · simp only [h1] at h ⊢
      rcases h2 : (if ratTrunc q > 0 then start env c1 else stop env c1) with ⟨res2, c2⟩
      rcases res2 with e2 | r2
      · simp [h2]
      · simp [h2] at h

lemma set_temp_target_error_state (env : Env) (temp : PyVal) (s : DevSt) (q : ℚ)
    (hq : pyFloat temp = Except.ok q)
    (h : (set_temp_target env temp s).1 = Except.error PyErr.ioError) :
    (set_temp_target env temp s).2.stir_speed = s.stir_speed ∧
    (set_temp_target env temp s).2.temp_target = q := by
  unfold set_temp_target at h ⊢
  simp only [hq] at h ⊢
  rcases h1 : clientSend env [pys "OUT_SP_1", pyIntStr (ratTrunc q)] s.cli with ⟨res1, c1⟩
  rcases res1 with e1 | r1
  · simp [h1]
  · simp only [h1] at h ⊢
    rcases h2 : clientSend env [pys "START_1"] c1 with ⟨res2, c2⟩
    rcases res2 with e2 | r2
    · simp [h2]
    · simp [h2] at h

/-- C1 counterexample to the claim as stated: with every write failing, a
`set_temp_target` call raises the IOError-kind failure, yet the stored
`_temp_target` has already changed from 20 to the new value 50 — it is not
unchanged from before the call. -/
theorem C1_counterexample :
    (set_temp_target failEnv (PyVal.int 50) initDev).1 = Except.error PyErr.ioError ∧
    initDev.temp_target = 20 ∧
    (set_temp_target failEnv (PyVal.int 50) initDev).2.temp_target = ((50 : Int) : ℚ) ∧
    ((50 : Int) : ℚ) ≠ 20 := by
  refine ⟨rfl, rfl, rfl, by decide⟩

/-- C1 (amended): an IOError-kind failure during a send propagates to the
caller; for `set_stir_speed` both stored fields are unchanged from before
the call, while for `set_temp_target` the stir speed is unchanged but
`_temp_target` already holds `float(temp)`, assigned before the sends. -/
theorem C1_transport_error_keeps_state (env : Env) (s : DevSt) (speed temp : PyVal) (q : ℚ) :
    ((set_stir_speed env speed s).1 = Except.error PyErr.ioError →
       (set_stir_speed env speed s).2.stir_speed = s.stir_speed ∧
       (set_stir_speed env speed s).2.temp_target = s.temp_target) ∧
    (pyFloat temp = Except.ok q →
       (set_temp_target env temp s).1 = Except.error PyErr.ioError →
       (set_temp_target env temp s).2.stir_speed = s.stir_speed ∧
       (set_temp_target env temp s).2.temp_target = q) :=
  ⟨fun h => set_stir_speed_keeps_fields_on_error env speed s h,
   fun hq h => set_temp_target_error_state env temp s q hq h⟩

/-- C1 witness: with every write failing, the failed `set_stir_speed(5)`
leaves both fields at their initial values, and the failed
`set_temp_target(50)` keeps the stir speed but stores 50. -/
theorem C1_transport_error_keeps_state_witness :
    ((set_stir_speed failEnv (PyVal.int 5) initDev).2.stir_speed = initDev.stir_speed ∧
     (set_stir_speed failEnv (PyVal.int 5) initDev).2.temp_target = initDev.temp_target) ∧
    ((set_temp_target failEnv (PyVal.int 50) initDev).2.stir_speed = initDev.stir_speed ∧
     (set_temp_target failEnv (PyVal.int 50) initDev).2.temp_target = ((50 : Int) : ℚ)) :=
  ⟨(C1_transport_error_keeps_state failEnv initDev (PyVal.int 5) (PyVal.int 50)
      ((50 : Int) : ℚ)).1 rfl,
   (C1_transport_error_keeps_state failEnv initDev (PyVal.int 5) (PyVal.int 50)
      ((50 : Int) : ℚ)).2 rfl rfl⟩

/-- C2 counterexample to the claim as stated: a non-numeric speed passed to
the facade operation `set_stir_speed` is NOT coerced to 0 — the ValueError
propagates, the state is unchanged and no command is issued. -/
theorem C2_counterexample :
    (set_stir_speed okEnv (PyVal.str (pys "abc")) initDev).1 = Except.error PyErr.valueError ∧
    (set_stir_speed okEnv (PyVal.str (pys "abc")) initDev).2 = initDev ∧
    writesOf (set_stir_speed okEnv (PyVal.str (pys "abc")) initDev).2.cli.tr = [] :=
  ⟨rfl, rfl, rfl⟩

/-- C2 (amended): only the protocol actions `start_stir` and `stir` coerce
conversion failures of speed/duration inputs to the default 0 and proceed as
if 0 had been passed; the direct setters `set_stir_speed` and
`set_temp_target` instead propagate the conversion error with the state
unchanged and no command issued. -/
theorem C2_conversion_policy (env : Env) (s : DevSt) (vessel sp : PyVal) (e : PyErr)
    (h : pyFloat sp = Except.error e) :
    set_stir_speed env sp s = (Except.error e, s) ∧
    set_temp_target env sp s = (Except.error e, s) ∧
    start_stir env vessel sp s = start_stir env vessel (PyVal.int 0) s ∧
    stir env sp sp sp s = stir env (PyVal.int 0) (PyVal.int 0) (PyVal.int 0) s := by
  have h1 : coerceSpeed sp = 0 := by simp [coerceSpeed, h]
  have h2 : coerceSpeed (PyVal.int 0) = 0 := by decide
  have h3 : coerceDuration sp = 0 := by simp [coerceDuration, h]
  have h4 : coerceDuration (PyVal.int 0) = 0 := by simp [coerceDuration, pyFloat]
  have h5 : ratTrunc 0 = 0 := by decide
  refine ⟨?_, ?_, ?_, ?_⟩
  · simp [set_stir_speed, h]
  · simp [set_temp_target, h]
  · simp [start_stir, h1, h2]
  · simp [stir, h1, h2, h3, h4, h5]

/-- C2 witness at the spec's own example shape: vessel `{"id": "v1"}` with
the malformed speed string `"bad"`. -/
theorem C2_conversion_policy_witness :
    set_stir_speed okEnv (PyVal.str (pys "bad")) initDev =
      (Except.error PyErr.valueError, initDev) ∧
    set_temp_target okEnv (PyVal.str (pys "bad")) initDev =
      (Except.error PyErr.valueError, initDev) ∧
    start_stir okEnv (PyVal.dict [(pys "id", PyVal.str (pys "v1"))])
        (PyVal.str (pys "bad")) initDev =
      start_stir okEnv (PyVal.dict [(pys "id", PyVal.str (pys "v1"))]) (PyVal.int 0) initDev ∧
    stir okEnv (PyVal.str (pys "bad")) (PyVal.str (pys "bad")) (PyVal.str (pys "bad")) initDev =
      stir okEnv (PyVal.int 0) (PyVal.int 0) (PyVal.int 0) initDev :=
  C2_conversion_policy okEnv initDev (PyVal.dict [(pys "id", PyVal.str (pys "v1"))])
    (PyVal.str (pys "bad")) PyErr.valueError rfl

/-- C8 counterexample to the claim as stated: for the plain value `None`,
`_extract_vessel_id` yields `str(None) = "None"`, not the empty string. -/
theorem C8_counterexample :
    extract_vessel_id PyVal.none = pys "None" ∧ extract_vessel_id PyVal.none ≠ [] :=
  ⟨rfl, by decide⟩

/-- C8 (amended): extraction never raises and always yields a string; a dict
lacking an `"id"` field yields the empty string, a plain string is returned
as is, and a plain `None` yields its string rendering `"None"` (not the
empty string). -/
theorem C8_extract_vessel_id (fields : List (PyStr × PyVal)) (t : PyStr)
    (h : fields.lookup (pys "id") = Option.none) :
    extract_vessel_id (PyVal.dict fields) = [] ∧
    extract_vessel_id PyVal.none = pys "None" ∧
    extract_vessel_id (PyVal.str t) = t := by
  refine ⟨?_, rfl, rfl⟩
  simp [extract_vessel_id, h, pyStr]

/-- C8 witness: an empty dict and a plain id string. -/
theorem C8_extract_vessel_id_witness :
    extract_vessel_id (PyVal.dict []) = [] ∧
    extract_vessel_id PyVal.none = pys "None" ∧
    extract_vessel_id (PyVal.str (pys "v1")) = pys "v1" :=
  C8_extract_vessel_id [] (pys "v1") rfl

end Ika

namespace Ika

lemma rxLoop_terminates (arrive : Nat → PyStr) (deadline T : Nat)
    (hq : ∀ u, T ≤ u → arrive u = []) :
    ∀ (fuel : Nat) (s : RxSt),
      s.buf ++ s.waiting = ((List.range s.t).map arrive).flatten →
      s.waiting = (if s.t = 0 then [] else arrive (s.t - 1)) →
      max deadline (T + 1) + 1 ≤ s.t + fuel →
      ∃ s', rxLoop arrive deadline fuel s = some s' ∧
        deadline ≤ s'.t ∧ s'.waiting = [] ∧
        s'.buf = ((List.range s'.t).map arrive).flatten := by
  intro fuel
  induction fuel with
  | zero =>
    intro s hinv hw hf
    have hwempty : s.waiting = [] := by
      rw [hw, if_neg (by omega)]
      exact hq _ (by omega)
    have hcond : ¬ (s.t < deadline ∨ s.waiting ≠ []) := by
      rintro (hc | hc)
      · omega
      · exact hc hwempty
    rw [rxLoop, if_neg hcond]
    refine ⟨s, rfl, by omega, hwempty, ?_⟩
    rw [← hinv, hwempty, List.append_nil]
  | succ f ih =>
    intro s hinv hw hf
    by_cases hcond : s.t < deadline ∨ s.waiting ≠ []
    · rw [rxLoop, if_pos hcond]
      have h1 : (rxStep arrive s).buf ++ (rxStep arrive s).waiting =
          ((List.range (rxStep arrive s).t).map arrive).flatten := by
        simp only [rxStep, List.range_succ, List.map_append, List.flatten_append,
          List.map_cons, List.map_nil, List.flatten_cons, List.flatten_nil,
          List.append_nil, List.append_assoc, hinv]
      have h2 : (rxStep arrive s).waiting =
          (if (rxStep arrive s).t = 0 then [] else arrive ((rxStep arrive s).t - 1)) := by
        simp [rxStep]
      exact ih (rxStep arrive s) h1 h2 (by simp only [rxStep]; omega)
    · rw [rxLoop, if_neg hcond]
      have hwempty : s.waiting = [] := by
        by_contra hne
        exact hcond (Or.inr hne)
      refine ⟨s, rfl, by
        by_contra hlt
        exact hcond (Or.inl (by omega)), hwempty, ?_⟩
      rw [← hinv, hwempty, List.append_nil]

/-- C9: on a discrete clock, the read-until-quiet loop of `send` exits
exactly when the deadline has elapsed AND no bytes are waiting; for every
byte stream that is quiet from some time `T` on, a finite fuel completes the
loop (it never blocks indefinitely), and the collected buffer holds every
byte that arrived before the exit — including bytes that arrived after the
nominal deadline. -/
theorem C9_read_until_quiet (arrive : Nat → PyStr) (deadline T : Nat)
    (hq : ∀ u, T ≤ u → arrive u = []) :
    (rxRun arrive deadline T).isSome = true ∧
    deadline ≤ ((rxRun arrive deadline T).getD ⟨0, [], []⟩).t ∧
    ((rxRun arrive deadline T).getD ⟨0, [], []⟩).waiting = [] ∧
    ((rxRun arrive deadline T).getD ⟨0, [], []⟩).buf =
      ((List.range ((rxRun arrive deadline T).getD ⟨0, [], []⟩).t).map arrive).flatten := by
  obtain ⟨s', hrun, hd, hwempty, hbuf⟩ :=
    rxLoop_terminates arrive deadline T hq (max deadline (T + 1) + 1) ⟨0, [], []⟩
      (by simp) (by simp) (by omega)
  unfold rxRun
  rw [hrun]
  exact ⟨rfl, hd, hwempty, hbuf⟩

/-- C9 witness: deadline 1, bytes arriving at times 0, 1 and 2 (so past the
deadline) and quiet from time 3 on — the loop completes, exits past the
deadline with nothing waiting, and collected every arrived byte. -/
theorem C9_read_until_quiet_witness :
    (rxRun (fun u => if u < 3 then [u] else []) 1 3).isSome = true ∧
    1 ≤ ((rxRun (fun u => if u < 3 then [u] else []) 1 3).getD ⟨0, [], []⟩).t ∧
    ((rxRun (fun u => if u < 3 then [u] else []) 1 3).getD ⟨0, [], []⟩).waiting = [] ∧
    ((rxRun (fun u => if u < 3 then [u] else []) 1 3).getD ⟨0, [], []⟩).buf =
      ((List.range ((rxRun (fun u => if u < 3 then [u] else []) 1 3).getD ⟨0, [], []⟩).t).map
        (fun u => if u < 3 then [u] else [])).flatten :=
  C9_read_until_quiet (fun u => if u < 3 then [u] else []) 1 3
    (fun u hu => by
      show (if u < 3 then [u] else []) = []
      rw [if_neg (by omega)])

end Ika
